import Mathlib

/-!
Shallow embedding of `src/vector/defn.rs`: the safe accessor layer over the
native OGR feature-definition (layer schema) handle.  Native handles are
modelled by the data observable through them; native calls whose semantics
live outside this repository (the C library, `utils.rs`, `errors.rs`,
`spatial_ref.rs`) are modelled from the spec and flagged as such in their
doc comments.  Everything else is translated directly from the Rust source.
-/

set_option autoImplicit false

namespace Gdal

/-- Opaque model of a native spatial-reference handle (`OGRSpatialReferenceH`).
Its internals are irrelevant to this layer; a `Nat` tag stands for the
pointer identity. -/
structure SpatialRef where
  handle : Nat
deriving DecidableEq, Inhabited

/-- Data observable through a native `OGRFieldDefnH` handle.  String-valued
entries model the result of the `_string` conversion of the native C string:
`none` stands for a null pointer or an unconvertible string, `some s` for a
successfully converted string.  Numeric entries model the raw values the
native getters return (`OGRFieldType::Type` is a `u32`; widths, precisions
and boolean flags are C `int`s). -/
structure Field where
  nameRef : Option String
  alternativeNameRef : Option String
  fieldType : Nat
  widthRaw : Int
  precisionRaw : Int
  nullableFlag : Int
  uniqueFlag : Int
  defaultValue : Option String
deriving DecidableEq, Inhabited

/-- Data observable through a native `OGRGeomFieldDefnH` handle.
`spatialRef` models the pointer returned by `OGR_GFld_GetSpatialRef`:
`none` stands for a null pointer. -/
structure GeomField where
  nameRef : Option String
  geomFieldType : Nat
  spatialRef : Option SpatialRef
deriving DecidableEq, Inhabited

/-- Data observable through a native `OGRFeatureDefnH` handle (the layer
definition wrapped by the Rust `Defn` struct): its attribute fields, its
geometry fields, and the geometry type of the first geometry field. -/
structure Defn where
  fieldDefns : List Field
  geomFieldDefns : List GeomField
  geomType : Nat
deriving DecidableEq, Inhabited

/-- The error variants of `GdalError` reachable from `defn.rs`
(`errors.rs` itself is not under `src/`): `FfiNulError` is the conversion
of `std::ffi::NulError` raised by `CString::new` on an interior NUL byte,
`InvalidFieldName` carries the requested field name and the native method
consulted, `IntConversionError` is the conversion of `TryFromIntError`
raised by `try_into`, and `NullPointer` carries the name of the native
method that returned a null pointer. -/
inductive GdalError where
  | FfiNulError (text : String)
  | InvalidFieldName (field_name : String) (method_name : String)
  | IntConversionError
  | NullPointer (method_name : String)
deriving DecidableEq

/-- Holds exactly on the `InvalidFieldName` (name-not-found) error. -/
def GdalError.isInvalidFieldName : GdalError → Bool
  | .InvalidFieldName _ _ => true
  | _ => false

/-- Holds exactly on the `NullPointer` error. -/
def GdalError.isNullPointer : GdalError → Bool
  | .NullPointer _ => true
  | _ => false

/-- Holds exactly on the `FfiNulError` (C-string conversion) error. -/
def GdalError.isFfiNulError : GdalError → Bool
  | .FfiNulError _ => true
  | _ => false

/-- A string contains an interior NUL byte exactly when the character
`U+0000` occurs among its characters (in UTF-8 the byte `0` encodes only
that character). -/
def hasInteriorNul (s : String) : Bool :=
  s.data.contains (Char.ofNat 0)

/-- Model of `std::ffi::CString::new`, as used with `?` in `defn.rs`: it
fails with the (converted) NUL error exactly when the input contains an
interior NUL byte, and otherwise yields the same text as a C string. -/
def CString.new (s : String) : Except GdalError String :=
  if hasInteriorNul s then .error (.FfiNulError s) else .ok s

/-- Model of `c_int::try_into::<usize>()` as used with `?` in `defn.rs`:
succeeds exactly on non-negative values. -/
def try_into (i : Int) : Except GdalError Nat :=
  if 0 ≤ i then .ok i.toNat else .error .IntConversionError

/-- Lower-case an ASCII letter; every other character is unchanged. -/
def asciiLower (c : Char) : Char :=
  if 65 ≤ c.toNat ∧ c.toNat ≤ 90 then Char.ofNat (c.toNat + 32) else c

/-- Case-insensitive string comparison used by the native lookup (the
native library compares with ASCII case folding). -/
def caseInsensitiveEq (a b : String) : Bool :=
  a.data.map asciiLower = b.data.map asciiLower

/-- Modelled from the spec: the native name-to-index lookup shared by
`OGR_FD_GetFieldIndex` and `OGR_FD_GetGeomFieldIndex` (part of the wrapped
C library, not of this repository).  The comparison is case-insensitive;
the index of the first matching name is returned, and `-1` when no name
matches. -/
def ogrFieldIndex (names : List String) (s : String) : Int :=
  match names with
  | [] => -1
  | n :: rest =>
    if caseInsensitiveEq n s then 0
    else if ogrFieldIndex rest s = -1 then -1
    else ogrFieldIndex rest s + 1

/-- The attribute-field names of a layer definition, as the native lookup
sees them. -/
def Defn.fieldNames (d : Defn) : List String :=
  d.fieldDefns.map (fun f => f.nameRef.getD "")

/-- The geometry-field names of a layer definition, as the native lookup
sees them. -/
def Defn.geomFieldNames (d : Defn) : List String :=
  d.geomFieldDefns.map (fun g => g.nameRef.getD "")

/-- Model of the native `OGR_FD_GetFieldCount`. -/
def OGR_FD_GetFieldCount (d : Defn) : Int :=
  (d.fieldDefns.length : Int)

/-- Model of the native `OGR_FD_GetGeomFieldCount`. -/
def OGR_FD_GetGeomFieldCount (d : Defn) : Int :=
  (d.geomFieldDefns.length : Int)

/-- Model of the native `OGR_FD_GetFieldDefn`: the handle of the `i`-th
attribute-field definition.  The wrapper only consults it at indices
`0 ≤ i <` count, where it is the `i`-th list entry. -/
def OGR_FD_GetFieldDefn (d : Defn) (i : Int) : Field :=
  d.fieldDefns.getD i.toNat default

/-- Model of the native `OGR_FD_GetGeomFieldDefn`: the handle of the `i`-th
geometry-field definition. -/
def OGR_FD_GetGeomFieldDefn (d : Defn) (i : Int) : GeomField :=
  d.geomFieldDefns.getD i.toNat default

/-- Model of the native `OGR_FD_GetFieldIndex`. -/
def OGR_FD_GetFieldIndex (d : Defn) (s : String) : Int :=
  ogrFieldIndex d.fieldNames s

/-- Model of the native `OGR_FD_GetGeomFieldIndex`. -/
def OGR_FD_GetGeomFieldIndex (d : Defn) (s : String) : Int :=
  ogrFieldIndex d.geomFieldNames s

/-- Model of the native `OGR_FD_GetGeomType`. -/
def OGR_FD_GetGeomType (d : Defn) : Nat :=
  d.geomType

/-- Modelled from the spec: `_last_null_pointer_err` (`utils.rs`, not under
`src/`) surfaces a null native pointer as a typed error carrying the name
of the native function consulted. -/
def _last_null_pointer_err (method_name : String) : GdalError :=
  .NullPointer method_name

/-- `Defn::geometry_type`: get the geometry type of the first geometry
field. -/
def Defn.geometry_type (d : Defn) : Nat :=
  OGR_FD_GetGeomType d

/-- `Defn::_field_index`: convert the name to a C string, consult the
native case-insensitive lookup, report `InvalidFieldName` on `-1`, and
otherwise convert the index to `usize`. -/
def Defn._field_index (d : Defn) (field_name : String) : Except GdalError Nat :=
  match CString.new field_name with
  | .error e => .error e
  | .ok c_str_field_name =>
    let field_idx := OGR_FD_GetFieldIndex d c_str_field_name
    if field_idx = -1 then
      .error (.InvalidFieldName field_name "OGR_FD_GetFieldIndex")
    else
      try_into field_idx

/-- `Defn::field_index` (the `AsRef<str>` wrapper is the identity on the
underlying string). -/
def Defn.field_index (d : Defn) (field_name : String) : Except GdalError Nat :=
  Defn._field_index d field_name

/-- `Defn::_geometry_field_index`: as `_field_index`, against the geometry
fields and `OGR_FD_GetGeomFieldIndex`. -/
def Defn._geometry_field_index (d : Defn) (field_name : String) : Except GdalError Nat :=
  match CString.new field_name with
  | .error e => .error e
  | .ok c_str_field_name =>
    let field_idx := OGR_FD_GetGeomFieldIndex d c_str_field_name
    if field_idx = -1 then
      .error (.InvalidFieldName field_name "OGR_FD_GetGeomFieldIndex")
    else
      try_into field_idx

/-- `Defn::geometry_field_index`. -/
def Defn.geometry_field_index (d : Defn) (field_name : String) : Except GdalError Nat :=
  Defn._geometry_field_index d field_name

/-- The state of a Rust `FieldIterator`: the borrowed schema handle (the
Rust struct stores it twice, as `defn` and `c_feature_defn`; both point at
the same handle, modelled once), the cursor `next_id` and the
native-reported `total` (both `isize`). -/
structure FieldIterator where
  c_feature_defn : Defn
  next_id : Int
  total : Int
deriving DecidableEq, Inhabited

/-- The state of a Rust `GeomFieldIterator`. -/
structure GeomFieldIterator where
  c_feature_defn : Defn
  next_id : Int
  total : Int
deriving DecidableEq, Inhabited

/-- `Defn::fields`: construct the attribute-field iterator with cursor `0`
and the native-reported field count. -/
def Defn.fields (d : Defn) : FieldIterator :=
  { c_feature_defn := d, next_id := 0, total := OGR_FD_GetFieldCount d }

/-- `Defn::geom_fields`: construct the geometry-field iterator with cursor
`0` and the native-reported geometry-field count. -/
def Defn.geom_fields (d : Defn) : GeomFieldIterator :=
  { c_feature_defn := d, next_id := 0, total := OGR_FD_GetGeomFieldCount d }

/-- `FieldIterator::next` of the `Iterator` impl: yield `None` when the
cursor equals the total, otherwise yield the field definition the native
get-by-index call returns at the cursor and advance the cursor.  The
returned pair is (yielded item, iterator state after the call); in-range
cursors fit in a C `int` because `total` originates from a native C `int`,
so the `as c_int` cast is the identity on every index consulted. -/
def FieldIterator.next (it : FieldIterator) : Option Field × FieldIterator :=
  if it.next_id = it.total then
    (none, it)
  else
    (some (OGR_FD_GetFieldDefn it.c_feature_defn it.next_id),
     { it with next_id := it.next_id + 1 })

/-- `GeomFieldIterator::next` of the `Iterator` impl. -/
def GeomFieldIterator.next (it : GeomFieldIterator) : Option GeomField × GeomFieldIterator :=
  if it.next_id = it.total then
    (none, it)
  else
    (some (OGR_FD_GetGeomFieldDefn it.c_feature_defn it.next_id),
     { it with next_id := it.next_id + 1 })

/-- Iterator state after `k` successive calls to `next`. -/
def FieldIterator.nextN (it : FieldIterator) : Nat → FieldIterator
  | 0 => it
  | k + 1 => (FieldIterator.nextN it k).next.2

/-- Iterator state after `k` successive calls to `next`. -/
def GeomFieldIterator.nextN (it : GeomFieldIterator) : Nat → GeomFieldIterator
  | 0 => it
  | k + 1 => (GeomFieldIterator.nextN it k).next.2

/-- `Field::name`: `_string` of the native name, defaulting to the empty
string. -/
def Field.name (f : Field) : String :=
  f.nameRef.getD ""

/-- `Field::alternative_name`. -/
def Field.alternative_name (f : Field) : String :=
  f.alternativeNameRef.getD ""

/-- `Field::field_type`: the raw native `OGRFieldType::Type` value. -/
def Field.field_type (f : Field) : Nat :=
  f.fieldType

/-- `Field::width`. -/
def Field.width (f : Field) : Int :=
  f.widthRaw

/-- `Field::precision`. -/
def Field.precision (f : Field) : Int :=
  f.precisionRaw

/-- `Field::is_nullable`: true exactly when the native flag is nonzero. -/
def Field.is_nullable (f : Field) : Bool :=
  f.nullableFlag != 0

/-- `Field::is_unique`: true exactly when the native flag is nonzero. -/
def Field.is_unique (f : Field) : Bool :=
  f.uniqueFlag != 0

/-- `Field::default_value`: `_string` of the native default, with no
defaulting — absence stays `none`. -/
def Field.default_value (f : Field) : Option String :=
  f.defaultValue

/-- `GeomField::name`. -/
def GeomField.name (g : GeomField) : String :=
  g.nameRef.getD ""

/-- `GeomField::field_type`: the raw native `OGRwkbGeometryType` value. -/
def GeomField.field_type (g : GeomField) : Nat :=
  g.geomFieldType

/-- Modelled from the spec: `SpatialRef::from_c_obj` (`spatial_ref.rs`, not
under `src/`) wraps a non-null native spatial-reference handle into a
`SpatialRef` value. -/
def SpatialRef.from_c_obj (c_obj : SpatialRef) : Except GdalError SpatialRef :=
  .ok c_obj

/-- `GeomField::spatial_ref`: error with the typed null-pointer error
naming `OGR_GFld_GetSpatialRef` when the native call returns a null
pointer, otherwise wrap the returned handle. -/
def GeomField.spatial_ref (g : GeomField) : Except GdalError SpatialRef :=
  match g.spatialRef with
  | none => .error (_last_null_pointer_err "OGR_GFld_GetSpatialRef")
  | some c_obj => SpatialRef.from_c_obj c_obj

/-- Whether the `i`-th name of the list matches `s` case-insensitively. -/
def nameMatchAt (names : List String) (s : String) (i : Nat) : Bool :=
  match names[i]? with
  | some n => caseInsensitiveEq n s
  | none => false

/-- A concrete attribute-field definition used to evaluate the theorems. -/
def demoField : Field :=
  { nameRef := some "Name", alternativeNameRef := some "alias", fieldType := 4,
    widthRaw := 10, precisionRaw := 0, nullableFlag := 1, uniqueFlag := 0,
    defaultValue := none }

/-- A second concrete field whose name matches `demoField` case-insensitively. -/
def demoField2 : Field :=
  { demoField with nameRef := some "NAME", defaultValue := some "0" }

/-- A concrete geometry-field definition with no spatial reference. -/
def demoGeomField : GeomField :=
  { nameRef := some "geom", geomFieldType := 3, spatialRef := none }

/-- A concrete layer definition used to evaluate the theorems. -/
def demoDefn : Defn :=
  { fieldDefns := [demoField, demoField2], geomFieldDefns := [demoGeomField],
    geomType := 3 }

/-- A name with an interior NUL byte. -/
def nulName : String :=
  "a\x00b"

lemma ogrFieldIndex_neg_one_or_nonneg (names : List String) (s : String) :
    ogrFieldIndex names s = -1 ∨ 0 ≤ ogrFieldIndex names s := by
  induction names with
  | nil => exact Or.inl rfl
  | cons n rest ih =>
    simp only [ogrFieldIndex]
    split_ifs with h1 h2
    · exact Or.inr le_rfl
    · exact Or.inl rfl
    · rcases ih with h | h
      · exact absurd h h2
      · exact Or.inr (by omega)

lemma ogrFieldIndex_eq_neg_one_iff (names : List String) (s : String) :
    ogrFieldIndex names s = -1 ↔ ∀ n ∈ names, caseInsensitiveEq n s = false := by
  induction names with
  | nil => simp [ogrFieldIndex]
  | cons n rest ih =>
    simp only [ogrFieldIndex, List.mem_cons]
    split_ifs with h1 h2
    · constructor
      · intro h
        exact absurd h (by decide)
      · intro h
        have := h n (Or.inl rfl)
        rw [h1] at this
        exact Bool.noConfusion this
    · constructor
      · intro _ m hm
        rcases hm with hm | hm
        · subst hm; simpa using h1
        · exact (ih.mp h2) m hm
      · intro _; rfl
    · constructor
      · intro h
        exfalso
        rcases ogrFieldIndex_neg_one_or_nonneg rest s with hr | hr
        · exact h2 hr
        · omega
      · intro h
        have : ogrFieldIndex rest s = -1 := ih.mpr (fun m hm => h m (Or.inr hm))
        exact absurd this h2

lemma ogrFieldIndex_first_match (names : List String) (s : String) :
    ∀ i : Nat, ogrFieldIndex names s = (i : Int) →
      nameMatchAt names s i = true ∧
        ∀ k : Nat, k < i → nameMatchAt names s k = false := by
  induction names with
  | nil =>
    intro i h
    simp only [ogrFieldIndex] at h
    omega
  | cons n rest ih =>
    intro i h
    simp only [ogrFieldIndex] at h
    split_ifs at h with h1 h2
    · have hi : i = 0 := by omega
      subst hi
      refine ⟨by simpa [nameMatchAt] using h1, fun k hk => absurd hk (Nat.not_lt_zero k)⟩
    · rcases ogrFieldIndex_neg_one_or_nonneg rest s with hr | hr
      · exact absurd hr h2
      · obtain ⟨j, hj⟩ : ∃ j : Nat, ogrFieldIndex rest s = (j : Int) :=
          ⟨(ogrFieldIndex rest s).toNat, (Int.toNat_of_nonneg hr).symm⟩
        have hij : i = j + 1 := by omega
        subst hij
        obtain ⟨hm, hk⟩ := ih j hj
        refine ⟨by simpa [nameMatchAt] using hm, ?_⟩
        intro k hklt
        cases k with
        | zero => simpa [nameMatchAt] using h1
        | succ k =>
          have : k < j := by omega
          simpa [nameMatchAt] using hk k this

lemma ogrFieldIndex_match_found (names : List String) (s : String) (i : Nat)
    (h : nameMatchAt names s i = true) : 0 ≤ ogrFieldIndex names s := by
  rcases ogrFieldIndex_neg_one_or_nonneg names s with hr | hr
  · exfalso
    have hall := (ogrFieldIndex_eq_neg_one_iff names s).mp hr
    unfold nameMatchAt at h
    cases he : names[i]? with
    | none =>
      rw [he] at h
      exact Bool.noConfusion (h : false = true)
    | some n =>
      rw [he] at h
      have h2 : caseInsensitiveEq n s = true := h
      have hmem : n ∈ names := List.getElem?_mem he
      have hf := hall n hmem
      rw [h2] at hf
      exact Bool.noConfusion hf
  · exact hr

lemma fields_nextN_eq (d : Defn) (k : Nat) :
    d.fields.nextN k =
      { c_feature_defn := d,
        next_id := min (k : Int) (OGR_FD_GetFieldCount d),
        total := OGR_FD_GetFieldCount d } := by
  have h0 : (0 : Int) ≤ OGR_FD_GetFieldCount d := Int.natCast_nonneg _
  induction k with
  | zero =>
    simp only [FieldIterator.nextN, Defn.fields, FieldIterator.mk.injEq]
    refine ⟨trivial, ?_, trivial⟩
    omega
  | succ k ih =>
    show (FieldIterator.nextN d.fields k).next.2 = _
    rw [ih]
    simp only [FieldIterator.next]
    split_ifs with h
    · simp only [FieldIterator.mk.injEq]
      refine ⟨trivial, ?_, trivial⟩
      omega
    · simp only [FieldIterator.mk.injEq]
      refine ⟨trivial, ?_, trivial⟩
      omega

lemma geom_fields_nextN_eq (d : Defn) (k : Nat) :
    d.geom_fields.nextN k =
      { c_feature_defn := d,
        next_id := min (k : Int) (OGR_FD_GetGeomFieldCount d),
        total := OGR_FD_GetGeomFieldCount d } := by
  have h0 : (0 : Int) ≤ OGR_FD_GetGeomFieldCount d := Int.natCast_nonneg _
  induction k with
  | zero =>
    simp only [GeomFieldIterator.nextN, Defn.geom_fields, GeomFieldIterator.mk.injEq]
    refine ⟨trivial, ?_, trivial⟩
    omega
  | succ k ih =>
    show (GeomFieldIterator.nextN d.geom_fields k).next.2 = _
    rw [ih]
    simp only [GeomFieldIterator.next]
    split_ifs with h
    · simp only [GeomFieldIterator.mk.injEq]
      refine ⟨trivial, ?_, trivial⟩
      omega
    · simp only [GeomFieldIterator.mk.injEq]
      refine ⟨trivial, ?_, trivial⟩
      omega

/-- An attribute-field definition with all native strings null. -/
def noneField : Field :=
  { nameRef := none, alternativeNameRef := none, fieldType := 0,
    widthRaw := 0, precisionRaw := 0, nullableFlag := 0, uniqueFlag := 0,
    defaultValue := none }

/-- A geometry-field definition with a null native name. -/
def noneGeomField : GeomField :=
  { nameRef := none, geomFieldType := 0, spatialRef := none }

lemma field_index_error_cases (d : Defn) (s : String) (e : GdalError)
    (h : Defn._field_index d s = .error e) :
    e.isInvalidFieldName = true ∨ e.isFfiNulError = true := by
  by_cases hs : hasInteriorNul s
  · have hcs : CString.new s = .error (.FfiNulError s) := by
      simp [CString.new, hs]
    have hfi : Defn._field_index d s = .error (.FfiNulError s) := by
      simp only [Defn._field_index, hcs]
    rw [hfi] at h
    injection h with he
    rw [← he]
    exact Or.inr rfl
  · have hcs : CString.new s = .ok s := by
      simp [CString.new, hs]
    have hfi : Defn._field_index d s =
        (if OGR_FD_GetFieldIndex d s = -1 then
          .error (.InvalidFieldName s "OGR_FD_GetFieldIndex")
        else try_into (OGR_FD_GetFieldIndex d s)) := by
      simp only [Defn._field_index, hcs]
    rw [hfi] at h
    split_ifs at h with h1
    · injection h with he
      rw [← he]
      exact Or.inl rfl
    · have hr : 0 ≤ OGR_FD_GetFieldIndex d s := by
        rcases ogrFieldIndex_neg_one_or_nonneg d.fieldNames s with hr | hr
        · exact absurd hr h1
        · exact hr
      simp only [try_into] at h
      rw [if_pos hr] at h
      exact Except.noConfusion h

lemma geometry_field_index_error_cases (d : Defn) (s : String) (e : GdalError)
    (h : Defn._geometry_field_index d s = .error e) :
    e.isInvalidFieldName = true ∨ e.isFfiNulError = true := by
  by_cases hs : hasInteriorNul s
  · have hcs : CString.new s = .error (.FfiNulError s) := by
      simp [CString.new, hs]
    have hfi : Defn._geometry_field_index d s = .error (.FfiNulError s) := by
      simp only [Defn._geometry_field_index, hcs]
    rw [hfi] at h
    injection h with he
    rw [← he]
    exact Or.inr rfl
  · have hcs : CString.new s = .ok s := by
      simp [CString.new, hs]
    have hfi : Defn._geometry_field_index d s =
        (if OGR_FD_GetGeomFieldIndex d s = -1 then
          .error (.InvalidFieldName s "OGR_FD_GetGeomFieldIndex")
        else try_into (OGR_FD_GetGeomFieldIndex d s)) := by
      simp only [Defn._geometry_field_index, hcs]
    rw [hfi] at h
    split_ifs at h with h1
    · injection h with he
      rw [← he]
      exact Or.inl rfl
    · have hr : 0 ≤ OGR_FD_GetGeomFieldIndex d s := by
        rcases ogrFieldIndex_neg_one_or_nonneg d.geomFieldNames s with hr | hr
        · exact absurd hr h1
        · exact hr
      simp only [try_into] at h
      rw [if_pos hr] at h
      exact Except.noConfusion h

/-- C1: for a NUL-free field name, `Defn::field_index` returns `Ok i`
exactly when the native case-insensitive lookup `OGR_FD_GetFieldIndex`
returns the non-negative index `i`, and returns the `InvalidFieldName`
error exactly when the native lookup returns `-1`; when several fields
match the name case-insensitively, the returned index is the first
(least) matching one. -/
theorem field_index_matches_native_lookup (d : Defn) (s : String)
    (hs : hasInteriorNul s = false) :
    (∀ i : Nat, Defn.field_index d s = .ok i ↔ OGR_FD_GetFieldIndex d s = (i : Int)) ∧
    (Defn.field_index d s = .error (.InvalidFieldName s "OGR_FD_GetFieldIndex") ↔
      OGR_FD_GetFieldIndex d s = -1) ∧
    (∀ i : Nat, Defn.field_index d s = .ok i →
      nameMatchAt d.fieldNames s i = true ∧
        ∀ k : Nat, k < i → nameMatchAt d.fieldNames s k = false) := by
  have hcs : CString.new s = .ok s := by
    simp [CString.new, hs]
  have hfi : Defn.field_index d s =
      (if OGR_FD_GetFieldIndex d s = -1 then
        .error (.InvalidFieldName s "OGR_FD_GetFieldIndex")
      else try_into (OGR_FD_GetFieldIndex d s)) := by
    simp only [Defn.field_index, Defn._field_index, hcs]
  rcases ogrFieldIndex_neg_one_or_nonneg d.fieldNames s with hr | hr
  · have hr2 : OGR_FD_GetFieldIndex d s = -1 := hr
    rw [hr2, if_pos rfl] at hfi
    refine ⟨fun i => ⟨fun h => ?_, fun h => ?_⟩, ⟨fun _ => hr2, fun _ => hfi⟩,
      fun i h => ?_⟩
    · rw [hfi] at h
      exact Except.noConfusion h
    · rw [hr2] at h
      exact absurd h (by omega)
    · rw [hfi] at h
      exact Except.noConfusion h
  · have hr2 : 0 ≤ OGR_FD_GetFieldIndex d s := hr
    have hne : ¬ OGR_FD_GetFieldIndex d s = -1 := by omega
    rw [if_neg hne] at hfi
    have hok : Defn.field_index d s = .ok (OGR_FD_GetFieldIndex d s).toNat := by
      rw [hfi]
      simp only [try_into]
      rw [if_pos hr2]
    have hmp : ∀ i : Nat, Defn.field_index d s = .ok i → OGR_FD_GetFieldIndex d s = (i : Int) := by
      intro i h
      rw [hok] at h
      injection h with he
      omega
    refine ⟨fun i => ⟨hmp i, fun h => ?_⟩, ⟨fun h => ?_, fun h => absurd h hne⟩,
      fun i h => ogrFieldIndex_first_match d.fieldNames s i (hmp i h)⟩
    · rw [hok, h]
      simp
    · rw [hok] at h
      exact Except.noConfusion h

/-- Witness for C1: on a concrete layer whose two attribute fields are
named `"Name"` and `"NAME"`, querying `"name"` returns the native index
`0` — the first of the two case-insensitive matches (index `1` also
matches). -/
theorem field_index_matches_native_lookup_witness :
    OGR_FD_GetFieldIndex demoDefn "name" = ((0 : Nat) : Int) ∧
      nameMatchAt demoDefn.fieldNames "name" 1 = true :=
  ⟨((field_index_matches_native_lookup demoDefn "name" rfl).1 0).mp rfl, rfl⟩

/-- C2 counterexample: on a name with an interior NUL byte, `field_index`
returns an error that is neither the name-not-found error nor the
null-pointer error, so the layer has a third error kind. -/
theorem error_kinds_cex :
    Defn.field_index demoDefn nulName = .error (.FfiNulError nulName) ∧
      GdalError.isInvalidFieldName (.FfiNulError nulName) = false ∧
      GdalError.isNullPointer (.FfiNulError nulName) = false :=
  ⟨rfl, rfl, rfl⟩

/-- C2 amended: every error returned by an operation of this layer is the
name-not-found error, the null-pointer error, or the C-string conversion
error raised when the input name contains an interior NUL byte. -/
theorem error_kinds_amended (d : Defn) (s : String) (g : GeomField) (e : GdalError) :
    ((Defn.field_index d s = .error e ∨ Defn.geometry_field_index d s = .error e) →
      e.isInvalidFieldName = true ∨ e.isFfiNulError = true) ∧
    (GeomField.spatial_ref g = .error e → e.isNullPointer = true) := by
  constructor
  · rintro (h | h)
    · exact field_index_error_cases d s e h
    · exact geometry_field_index_error_cases d s e h
  · intro h
    cases hg : g.spatialRef with
    | none =>
      have hfi : GeomField.spatial_ref g =
          .error (.NullPointer "OGR_GFld_GetSpatialRef") := by
        simp only [GeomField.spatial_ref, hg, _last_null_pointer_err]
      rw [hfi] at h
      injection h with he
      rw [← he]
      rfl
    | some o =>
      have hfi : GeomField.spatial_ref g = .ok o := by
        simp only [GeomField.spatial_ref, hg]
        rfl
      rw [hfi] at h
      exact Except.noConfusion h

/-- Witness for the amended C2: a failed lookup on a concrete layer yields
an error of one of the listed kinds. -/
theorem error_kinds_amended_witness :
    GdalError.isInvalidFieldName (.InvalidFieldName "missing" "OGR_FD_GetFieldIndex") = true ∨
      GdalError.isFfiNulError (.InvalidFieldName "missing" "OGR_FD_GetFieldIndex") = true :=
  (error_kinds_amended demoDefn "missing" demoGeomField
    (.InvalidFieldName "missing" "OGR_FD_GetFieldIndex")).1 (Or.inl rfl)

/-- C3 counterexample: the C-string conversion failure on a name with an
interior NUL byte is a failure other than name-not-found and null-pointer,
yet it is propagated as an error by `geometry_field_index` rather than
masked by an empty value. -/
theorem masking_cex :
    Defn.geometry_field_index demoDefn nulName = .error (.FfiNulError nulName) ∧
      GdalError.isInvalidFieldName (.FfiNulError nulName) = false ∧
      GdalError.isNullPointer (.FfiNulError nulName) = false :=
  ⟨rfl, rfl, rfl⟩

/-- C3 amended: native-side marshalling failures are masked by defaulting —
`Field::name`, `Field::alternative_name` and `GeomField::name` return the
empty string when the native string is null or cannot be converted —
while the C-string conversion failure on a caller-supplied name is
propagated as an error. -/
theorem native_string_masking (f : Field) (g : GeomField) :
    (f.nameRef = none → Field.name f = "") ∧
    (f.alternativeNameRef = none → Field.alternative_name f = "") ∧
    (g.nameRef = none → GeomField.name g = "") := by
  refine ⟨fun h => ?_, fun h => ?_, fun h => ?_⟩ <;>
    simp [Field.name, Field.alternative_name, GeomField.name, h]

/-- Witness for the amended C3 on fields whose native strings are null. -/
theorem native_string_masking_witness :
    Field.name noneField = "" ∧ Field.alternative_name noneField = "" ∧
      GeomField.name noneGeomField = "" :=
  ⟨(native_string_masking noneField noneGeomField).1 rfl,
   (native_string_masking noneField noneGeomField).2.1 rfl,
   (native_string_masking noneField noneGeomField).2.2 rfl⟩

/-- C4: for a layer whose native-reported field count is `n`, the iterator
of `Defn::fields` yields, at the `k`-th call (0-based, `k < n`), exactly
the field the native get-by-index call returns at index `k`, and yields
`None` at the `n`-th call; the same holds for `Defn::geom_fields` with the
geometry-field count. -/
theorem iterators_yield_each_field (d : Defn) (k : Nat) :
    ((k : Int) < OGR_FD_GetFieldCount d →
      (d.fields.nextN k).next.1 = some (OGR_FD_GetFieldDefn d (k : Int))) ∧
    (d.fields.nextN (OGR_FD_GetFieldCount d).toNat).next.1 = none ∧
    ((k : Int) < OGR_FD_GetGeomFieldCount d →
      (d.geom_fields.nextN k).next.1 = some (OGR_FD_GetGeomFieldDefn d (k : Int))) ∧
    (d.geom_fields.nextN (OGR_FD_GetGeomFieldCount d).toNat).next.1 = none := by
  have h0 : (0 : Int) ≤ OGR_FD_GetFieldCount d := Int.natCast_nonneg _
  have h1 : (0 : Int) ≤ OGR_FD_GetGeomFieldCount d := Int.natCast_nonneg _
  refine ⟨fun hk => ?_, ?_, fun hk => ?_, ?_⟩
  · rw [fields_nextN_eq]
    simp only [FieldIterator.next]
    rw [if_neg (by omega), min_eq_left (le_of_lt hk)]
  · rw [fields_nextN_eq]
    simp only [FieldIterator.next]
    rw [Int.toNat_of_nonneg h0, min_self, if_pos rfl]
  · rw [geom_fields_nextN_eq]
    simp only [GeomFieldIterator.next]
    rw [if_neg (by omega), min_eq_left (le_of_lt hk)]
  · rw [geom_fields_nextN_eq]
    simp only [GeomFieldIterator.next]
    rw [Int.toNat_of_nonneg h1, min_self, if_pos rfl]

/-- Witness for C4 on a concrete two-field layer at `k = 0`. -/
theorem iterators_yield_each_field_witness :
    (demoDefn.fields.nextN 0).next.1 = some (OGR_FD_GetFieldDefn demoDefn ((0 : Nat) : Int)) :=
  (iterators_yield_each_field demoDefn 0).1 (by decide)

/-- C5: in every iterator state reachable by any number of `next` calls
from `Defn::fields` or `Defn::geom_fields`, the cursor does not exceed the
native-reported count. -/
theorem iterator_cursor_invariant (d : Defn) (k : Nat) :
    (d.fields.nextN k).next_id ≤ (d.fields.nextN k).total ∧
    (d.geom_fields.nextN k).next_id ≤ (d.geom_fields.nextN k).total := by
  rw [fields_nextN_eq, geom_fields_nextN_eq]
  exact ⟨min_le_right _ _, min_le_right _ _⟩

/-- C6: `GeomField::spatial_ref` errors exactly when the native
`OGR_GFld_GetSpatialRef` returns a null pointer, the error is the typed
null-pointer error naming `OGR_GFld_GetSpatialRef`, and on a non-null
pointer the spatial reference wrapped from that pointer is returned. -/
theorem spatial_ref_null_pointer (g : GeomField) :
    (∀ e : GdalError, GeomField.spatial_ref g = .error e ↔
      (g.spatialRef = none ∧ e = .NullPointer "OGR_GFld_GetSpatialRef")) ∧
    (∀ sr : SpatialRef, g.spatialRef = some sr → GeomField.spatial_ref g = .ok sr) := by
  have hval : ∀ o : SpatialRef, g.spatialRef = some o →
      GeomField.spatial_ref g = .ok o := by
    intro o ho
    simp only [GeomField.spatial_ref, ho]
    rfl
  have hnone : g.spatialRef = none →
      GeomField.spatial_ref g = .error (.NullPointer "OGR_GFld_GetSpatialRef") := by
    intro ho
    simp only [GeomField.spatial_ref, ho, _last_null_pointer_err]
  refine ⟨fun e => ⟨fun h => ?_, fun hh => ?_⟩, hval⟩
  · cases ho : g.spatialRef with
    | none =>
      rw [hnone ho] at h
      injection h with he
      exact ⟨rfl, he.symm⟩
    | some o =>
      rw [hval o ho] at h
      exact Except.noConfusion h
  · rw [hnone hh.1, hh.2]

/-- Witness for C6 on a geometry field with no spatial reference. -/
theorem spatial_ref_null_pointer_witness :
    GeomField.spatial_ref demoGeomField = .error (.NullPointer "OGR_GFld_GetSpatialRef") :=
  ((spatial_ref_null_pointer demoGeomField).1 (.NullPointer "OGR_GFld_GetSpatialRef")).mpr
    ⟨rfl, rfl⟩

/-- C7: a name-not-found failure of `field_index` or
`geometry_field_index` carries the requested name and the native function
consulted (`OGR_FD_GetFieldIndex`, resp. `OGR_FD_GetGeomFieldIndex`). -/
theorem invalid_field_name_payload (d : Defn) (s n m : String) :
    (Defn.field_index d s = .error (.InvalidFieldName n m) →
      n = s ∧ m = "OGR_FD_GetFieldIndex") ∧
    (Defn.geometry_field_index d s = .error (.InvalidFieldName n m) →
      n = s ∧ m = "OGR_FD_GetGeomFieldIndex") := by
  by_cases hs : hasInteriorNul s
  · have hcs : CString.new s = .error (.FfiNulError s) := by
      simp [CString.new, hs]
    constructor
    · intro h
      have hfi : Defn.field_index d s = .error (.FfiNulError s) := by
        simp only [Defn.field_index, Defn._field_index, hcs]
      rw [hfi] at h
      injection h with he
      exact GdalError.noConfusion he
    · intro h
      have hfi : Defn.geometry_field_index d s = .error (.FfiNulError s) := by
        simp only [Defn.geometry_field_index, Defn._geometry_field_index, hcs]
      rw [hfi] at h
      injection h with he
      exact GdalError.noConfusion he
  · have hcs : CString.new s = .ok s := by
      simp [CString.new, hs]
    constructor
    · intro h
      have hfi : Defn.field_index d s =
          (if OGR_FD_GetFieldIndex d s = -1 then
            .error (.InvalidFieldName s "OGR_FD_GetFieldIndex")
          else try_into (OGR_FD_GetFieldIndex d s)) := by
        simp only [Defn.field_index, Defn._field_index, hcs]
      rw [hfi] at h
      split_ifs at h with h1
      · injection h with he
        injection he with he1 he2
        exact ⟨he1.symm, he2.symm⟩
      · have hr : 0 ≤ OGR_FD_GetFieldIndex d s := by
          rcases ogrFieldIndex_neg_one_or_nonneg d.fieldNames s with hr | hr
          · exact absurd hr h1
          · exact hr
        simp only [try_into] at h
        rw [if_pos hr] at h
        exact Except.noConfusion h
    · intro h
      have hfi : Defn.geometry_field_index d s =
          (if OGR_FD_GetGeomFieldIndex d s = -1 then
            .error (.InvalidFieldName s "OGR_FD_GetGeomFieldIndex")
          else try_into (OGR_FD_GetGeomFieldIndex d s)) := by
        simp only [Defn.geometry_field_index, Defn._geometry_field_index, hcs]
      rw [hfi] at h
      split_ifs at h with h1
      · injection h with he
        injection he with he1 he2
        exact ⟨he1.symm, he2.symm⟩
      · have hr : 0 ≤ OGR_FD_GetGeomFieldIndex d s := by
          rcases ogrFieldIndex_neg_one_or_nonneg d.geomFieldNames s with hr | hr
          · exact absurd hr h1
          · exact hr
        simp only [try_into] at h
        rw [if_pos hr] at h
        exact Except.noConfusion h

/-- Witness for C7 on a concrete failed lookup. -/
theorem invalid_field_name_payload_witness :
    "missing" = "missing" ∧ "OGR_FD_GetFieldIndex" = "OGR_FD_GetFieldIndex" :=
  (invalid_field_name_payload demoDefn "missing" "missing" "OGR_FD_GetFieldIndex").1 rfl

/-- C8: the metadata accessors are pure pass-throughs: `field_type`,
`width`, `precision` and `geometry_type` return the native value
unchanged, and `is_nullable` / `is_unique` are true exactly when the
native flag is nonzero. -/
theorem metadata_passthrough (f : Field) (d : Defn) :
    Field.field_type f = f.fieldType ∧
    Field.width f = f.widthRaw ∧
    Field.precision f = f.precisionRaw ∧
    Defn.geometry_type d = OGR_FD_GetGeomType d ∧
    (Field.is_nullable f = true ↔ f.nullableFlag ≠ 0) ∧
    (Field.is_unique f = true ↔ f.uniqueFlag ≠ 0) := by
  refine ⟨rfl, rfl, rfl, rfl, ?_, ?_⟩ <;>
    simp [Field.is_nullable, Field.is_unique]

/-- Witness for C8 on a concrete field with a nonzero nullable flag. -/
theorem metadata_passthrough_witness :
    Field.is_nullable demoField = true :=
  (metadata_passthrough demoField demoDefn).2.2.2.2.1.mpr (by decide)

/-- C9: a name with an interior NUL byte makes both lookups fail with the
C-string conversion error, independently of the layer definition (so the
native lookup is never consulted), and that error is not the
name-not-found error. -/
theorem interior_nul_rejected (d : Defn) (s : String)
    (hs : hasInteriorNul s = true) :
    Defn.field_index d s = .error (.FfiNulError s) ∧
    Defn.geometry_field_index d s = .error (.FfiNulError s) ∧
    GdalError.isInvalidFieldName (.FfiNulError s) = false := by
  have hcs : CString.new s = .error (.FfiNulError s) := by
    simp [CString.new, hs]
  refine ⟨?_, ?_, rfl⟩
  · simp only [Defn.field_index, Defn._field_index, hcs]
  · simp only [Defn.geometry_field_index, Defn._geometry_field_index, hcs]

/-- Witness for C9 at the concrete NUL-carrying name. -/
theorem interior_nul_rejected_witness :
    Defn.field_index demoDefn nulName = .error (.FfiNulError nulName) :=
  (interior_nul_rejected demoDefn nulName rfl).1

/-- C10: `Field::default_value` preserves absence as `None`, whereas the
three string accessors collapse an absent native string to the empty
string — making `default_value` the only string accessor whose absence
case is distinguishable from the empty string. -/
theorem default_value_absence (f : Field) (g : GeomField) :
    Field.default_value f = f.defaultValue ∧
    Field.name { f with nameRef := none } = Field.name { f with nameRef := some "" } ∧
    Field.alternative_name { f with alternativeNameRef := none } =
      Field.alternative_name { f with alternativeNameRef := some "" } ∧
    GeomField.name { g with nameRef := none } = GeomField.name { g with nameRef := some "" } ∧
    (Field.default_value { f with defaultValue := none } ==
      Field.default_value { f with defaultValue := some "" }) = false :=
  ⟨rfl, rfl, rfl, rfl, rfl⟩

end Gdal
